import Mathlib

/-!
Shallow embedding of `EmulatedGenyCameraDevice.cpp` (virtual camera device of
the device_androVM repository): the lifecycle state machine, the preview frame
buffer, and the frame-acquisition worker loop, together with theorems checking
the natural-language specification against the code.

The file of the repository under verification defines the derived class
`EmulatedGenyCameraDevice`.  Its base class `EmulatedCameraDevice` (state
helpers, common start/stop bookkeeping, base initialization) is code of the
repository that is not among the provided sources, so those members are
modelled from the spec and marked as such in their doc comments.  Everything
else is translated directly from the source file.
-/

namespace GenyCamera

/-- Return codes of type `status_t`.  `0` is success; nonzero values are errors. -/
abbrev Status := Nat

def NO_ERROR : Status := 0

def EINVAL : Status := 22

def ENOMEM : Status := 12

/-- The device lifecycle states (`ECDS_*` constants of the base class). -/
inductive DeviceState where
  | uninitialized
  | initialized
  | connected
  | started
  deriving DecidableEq, Repr

/-- The device object: the fields of `EmulatedGenyCameraDevice` and of its
base class that the source file reads or writes.  The preview frame buffer
`mPreviewFrame` is modelled as `none` for the NULL pointer and `some bytes`
for an allocated buffer holding the given byte contents. -/
structure Device where
  mState : DeviceState
  mPreviewFrame : Option (List Nat)
  mDeviceName : String
  mFrameWidth : Nat
  mFrameHeight : Nat
  mPixelFormat : Nat
  mTotalPixels : Nat
  mFrameBufferSize : Nat
  mEmulatedFPS : Nat
  mCurrentFrame : List Nat
  mWhiteBalanceScale0 : Nat
  mWhiteBalanceScale1 : Nat
  mWhiteBalanceScale2 : Nat
  mExposureCompensation : Nat
  mCurFrameTimestamp : Nat
  /-- whether the GenyClient socket to the local daemon is connected. -/
  clientConnected : Bool
  /-- whether the base-class common start bookkeeping is currently done. -/
  commonStarted : Bool
  /-- identity of the device object (the `this` pointer passed to callbacks). -/
  selfRef : Nat
  deriving DecidableEq, Repr

/-- Results of the external calls one lifecycle operation can make: the
GenyClient queries, the modelled base initialization, the modelled common
start bookkeeping, and the success of the preview-buffer allocation. -/
structure RemoteEnv where
  connectClientRes : Status
  baseInitRes : Status
  queryConnectRes : Status
  queryDisconnectRes : Status
  queryStartRes : Status
  queryStopRes : Status
  commonStartRes : Status
  allocOk : Bool
  deriving DecidableEq, Repr

/-- Observable side effects of a lifecycle operation, recorded in order. -/
inductive Event where
  | remoteConnectClient
  | remoteQueryConnect
  | remoteQueryDisconnect
  | remoteQueryStart
  | remoteQueryStop
  | allocPreviewBuffer
  | launchAcquisitionLoop
  deriving DecidableEq, Repr

/-- Modelled from the spec: base-class `isInitialized` — the device has left
the `Uninitialized` state. -/
def isInitialized (d : Device) : Bool :=
  d.mState != DeviceState.uninitialized

/-- Modelled from the spec: base-class `isConnected` — the device is in the
`Connected` or `Started` state. -/
def isConnected (d : Device) : Bool :=
  d.mState == DeviceState.connected || d.mState == DeviceState.started

/-- Modelled from the spec: base-class `isStarted` — the device is in the
`Started` state. -/
def isStarted (d : Device) : Bool :=
  d.mState == DeviceState.started

/-- Modelled from the spec: base-class `EmulatedCameraDevice::Initialize` —
precondition `state == Uninitialized` (otherwise fails with
`InvalidOperation` and leaves the state unchanged); runs the generic base
initialization and on success moves the state to `Initialized`. -/
def baseInitialize (env : RemoteEnv) (d : Device) : Status × Device :=
  if d.mState = DeviceState.uninitialized then
    if env.baseInitRes = NO_ERROR then
      (NO_ERROR, { d with mState := DeviceState.initialized })
    else
      (env.baseInitRes, d)
  else
    (EINVAL, d)

/-- Modelled from the spec: base-class `commonStartDevice` — computes the
frame geometry (width, height, pixel format, derived total-pixel count and
byte size) via the base sizing logic and records the common start
bookkeeping; on failure it changes nothing. -/
def commonStartDevice (env : RemoteEnv) (d : Device)
    (width height pix_fmt : Nat) : Status × Device :=
  if env.commonStartRes = NO_ERROR then
    (NO_ERROR,
      { d with
        mFrameWidth := width
        mFrameHeight := height
        mPixelFormat := pix_fmt
        mTotalPixels := width * height
        mFrameBufferSize := width * height * 4
        commonStarted := true })
  else
    (env.commonStartRes, d)

/-- Modelled from the spec: base-class `commonStopDevice` — undoes the common
start bookkeeping. -/
def commonStopDevice (d : Device) : Device :=
  { d with commonStarted := false }

/-- Translation of `EmulatedGenyCameraDevice::Initialize(device_name, local_srv_port)`:
connect the GenyClient to the local daemon, then run the base-class
initialization; if that fails, disconnect the just-connected client before
returning. -/
def Initialize (env : RemoteEnv) (d : Device) (device_name : String) :
    Status × Device × List Event :=
  if env.connectClientRes ≠ NO_ERROR then
    (env.connectClientRes, d, [Event.remoteConnectClient])
  else
    let d1 := { d with clientConnected := true }
    let (res, d2) := baseInitialize env d1
    if res = NO_ERROR then
      (NO_ERROR, { d2 with mDeviceName := device_name },
        [Event.remoteConnectClient])
    else
      (res, { d2 with clientConnected := false },
        [Event.remoteConnectClient, Event.remoteQueryDisconnect])

/-- Translation of `EmulatedGenyCameraDevice::connectDevice()`. -/
def connectDevice (env : RemoteEnv) (d : Device) :
    Status × Device × List Event :=
  if ¬ isInitialized d then
    (EINVAL, d, [])
  else if isConnected d then
    (NO_ERROR, d, [])
  else
    let res := env.queryConnectRes
    if res = NO_ERROR then
      (res, { d with mState := DeviceState.connected },
        [Event.remoteQueryConnect])
    else
      (res, d, [Event.remoteQueryConnect])

/-- Translation of `EmulatedGenyCameraDevice::disconnectDevice()`. -/
def disconnectDevice (env : RemoteEnv) (d : Device) :
    Status × Device × List Event :=
  if ¬ isConnected d then
    (NO_ERROR, d, [])
  else if isStarted d then
    (EINVAL, d, [])
  else
    let res := env.queryDisconnectRes
    if res = NO_ERROR then
      (res, { d with mState := DeviceState.initialized },
        [Event.remoteQueryDisconnect])
    else
      (res, d, [Event.remoteQueryDisconnect])

/-- Translation of `EmulatedGenyCameraDevice::startDevice(width, height, pix_fmt)`.  The
fresh allocation `new uint32_t[mTotalPixels]` is modelled as a zero-filled
byte buffer of `mTotalPixels * 4` bytes (its contents are unspecified in the
source); an allocation failure leaves `mPreviewFrame` NULL and returns
`ENOMEM`.  The launch of the acquisition loop on the transition into
`Started` is modelled from the spec as the `launchAcquisitionLoop` event. -/
def startDevice (env : RemoteEnv) (d : Device)
    (width height pix_fmt : Nat) : Status × Device × List Event :=
  if ¬ isConnected d then
    (EINVAL, d, [])
  else if isStarted d then
    (NO_ERROR, d, [])
  else
    let (res, d1) := commonStartDevice env d width height pix_fmt
    if res ≠ NO_ERROR then
      (res, d1, [])
    else
      if ¬ env.allocOk then
        (ENOMEM, { d1 with mPreviewFrame := none },
          [Event.allocPreviewBuffer])
      else
        let d2 := { d1 with
          mPreviewFrame := some (List.replicate (d1.mTotalPixels * 4) 0) }
        let res2 := env.queryStartRes
        if res2 = NO_ERROR then
          (res2, { d2 with mState := DeviceState.started },
            [Event.allocPreviewBuffer, Event.remoteQueryStart,
             Event.launchAcquisitionLoop])
        else
          (res2, d2, [Event.allocPreviewBuffer, Event.remoteQueryStart])

/-- Translation of `EmulatedGenyCameraDevice::stopDevice()`.  The source frees the preview
buffer only under `if (mPreviewFrame == NULL)` — the inverted null check of
the original code — so the branch is a no-op and is translated exactly as
written. -/
def stopDevice (env : RemoteEnv) (d : Device) :
    Status × Device × List Event :=
  if ¬ isStarted d then
    (NO_ERROR, d, [])
  else
    let res := env.queryStopRes
    if res = NO_ERROR then
      let d1 :=
        if d.mPreviewFrame = none then { d with mPreviewFrame := none }
        else d
      let d2 := commonStopDevice d1
      (res, { d2 with mState := DeviceState.connected },
        [Event.remoteQueryStop])
    else
      (res, d, [Event.remoteQueryStop])

/-- Translation of the destructor `EmulatedGenyCameraDevice::~EmulatedGenyCameraDevice()`: frees the
preview frame buffer if it is non-NULL. -/
def destroyDevice (d : Device) : Device :=
  if d.mPreviewFrame ≠ none then { d with mPreviewFrame := none } else d

/-- The lifecycle calls a control thread can issue. -/
inductive LifecycleCall where
  | init (device_name : String)
  | connect
  | disconnect
  | start (width height pix_fmt : Nat)
  | stop
  deriving DecidableEq, Repr

/-- Dispatch one lifecycle call on the device. -/
def applyCall (env : RemoteEnv) (c : LifecycleCall) (d : Device) :
    Status × Device × List Event :=
  match c with
  | LifecycleCall.init device_name => Initialize env d device_name
  | LifecycleCall.connect => connectDevice env d
  | LifecycleCall.disconnect => disconnectDevice env d
  | LifecycleCall.start width height pix_fmt =>
      startDevice env d width height pix_fmt
  | LifecycleCall.stop => stopDevice env d

/-- Run a sequence of lifecycle calls, each with its own environment of
external-call results, and return the final device. -/
def runCalls (cs : List (RemoteEnv × LifecycleCall)) (d : Device) : Device :=
  match cs with
  | [] => d
  | p :: rest => runCalls rest (applyCall p.1 p.2 d).2.1

/-- A freshly constructed device: `mPreviewFrame(NULL)` and the base class
starting in the `Uninitialized` state. -/
def initialDevice : Device :=
  { mState := DeviceState.uninitialized
    mPreviewFrame := none
    mDeviceName := ""
    mFrameWidth := 0
    mFrameHeight := 0
    mPixelFormat := 0
    mTotalPixels := 0
    mFrameBufferSize := 0
    mEmulatedFPS := 30
    mCurrentFrame := []
    mWhiteBalanceScale0 := 1
    mWhiteBalanceScale1 := 1
    mWhiteBalanceScale2 := 1
    mExposureCompensation := 1
    mCurFrameTimestamp := 0
    clientConnected := false
    commonStarted := false
    selfRef := 0 }

/-! ### The frame-acquisition worker loop (`inWorkerThread`) -/

/-- Result of `WorkerThread::Select`: either the exit message was received or
the FPS timeout expired. -/
inductive SelectRes where
  | exitThread
  | timedOut
  deriving DecidableEq, Repr

/-- Error kind `CAMERA_ERROR_SERVER_DIED`, reported on a failed pull. -/
def CAMERA_ERROR_SERVER_DIED : Nat := 1

/-- External behavior of one worker-loop iteration: what `Select` returns
when called with the given timeout, the result of `queryFrame`, the bytes it
writes into the two buffers on success, and the current monotonic clock
reading. -/
structure IterEnv where
  select : Nat → SelectRes
  queryFrameRes : Status
  frameData : List Nat
  previewData : List Nat
  clockNow : Nat

/-- A notification delivered to the camera HAL (the consumer). -/
inductive Notification where
  | onNextFrameAvailable (frame : List Nat) (timestamp : Nat) (deviceRef : Nat)
  | onCameraDeviceError (kind : Nat)
  deriving DecidableEq, Repr

/-- The arguments of one `queryFrame` call made by the loop. -/
structure PullCall where
  frameBuf : List Nat
  previewBuf : Option (List Nat)
  frameBufSize : Nat
  previewBufSize : Nat
  wbScale0 : Nat
  wbScale1 : Nat
  wbScale2 : Nat
  exposureComp : Nat
  deriving DecidableEq, Repr

/-- Result of one worker-loop iteration: whether the loop continues, the
updated device, the notifications delivered, the `queryFrame` calls made,
and the timeouts passed to `Select`. -/
structure IterResult where
  keepGoing : Bool
  device : Device
  notifs : List Notification
  pulls : List PullCall
  waits : List Nat
  deriving Repr

/-- Translation of `EmulatedGenyCameraDevice::inWorkerThread()`: wait on `Select` with
timeout `1000000 / mEmulatedFPS` microseconds; on the exit message return
`false`; otherwise call `queryFrame` with the two buffers, their sizes, the
three white-balance gains and the exposure compensation; on success record
the monotonic time as the frame timestamp, notify `onNextFrameAvailable`
with the frame, the timestamp and `this`, and return `true`; on failure
notify `onCameraDeviceError(CAMERA_ERROR_SERVER_DIED)` and return `false`. -/
def inWorkerThread (env : IterEnv) (d : Device) : IterResult :=
  let timeout := 1000000 / d.mEmulatedFPS
  match env.select timeout with
  | SelectRes.exitThread =>
      { keepGoing := false, device := d, notifs := [], pulls := [],
        waits := [timeout] }
  | SelectRes.timedOut =>
      let call : PullCall :=
        { frameBuf := d.mCurrentFrame
          previewBuf := d.mPreviewFrame
          frameBufSize := d.mFrameBufferSize
          previewBufSize := d.mTotalPixels * 4
          wbScale0 := d.mWhiteBalanceScale0
          wbScale1 := d.mWhiteBalanceScale1
          wbScale2 := d.mWhiteBalanceScale2
          exposureComp := d.mExposureCompensation }
      if env.queryFrameRes = NO_ERROR then
        let d1 := { d with
          mCurrentFrame := env.frameData
          mPreviewFrame := d.mPreviewFrame.map (fun _ => env.previewData)
          mCurFrameTimestamp := env.clockNow }
        { keepGoing := true, device := d1,
          notifs := [Notification.onNextFrameAvailable env.frameData
            env.clockNow d.selfRef],
          pulls := [call], waits := [timeout] }
      else
        { keepGoing := false, device := d,
          notifs := [Notification.onCameraDeviceError
            CAMERA_ERROR_SERVER_DIED],
          pulls := [call], waits := [timeout] }

/-- The worker loop: iterate `inWorkerThread` while it returns `true`,
consuming one iteration environment per iteration, collecting the delivered
notifications and the pull calls made. -/
def workerLoop (envs : List IterEnv) (d : Device) :
    Device × List Notification × List PullCall :=
  match envs with
  | [] => (d, [], [])
  | e :: rest =>
      let r := inWorkerThread e d
      if r.keepGoing then
        ((workerLoop rest r.device).1,
         r.notifs ++ (workerLoop rest r.device).2.1,
         r.pulls ++ (workerLoop rest r.device).2.2)
      else
        (r.device, r.notifs, r.pulls)

/-! ### The spec-side transition table (§4.1), for the refinement claim -/

/-- The transition table of §4.1 of the spec read literally, on the success
path of every external call: `Initialize` moves `Uninitialized` to
`Initialized`, `Connect` moves `Initialized` to `Connected`, `Disconnect`
moves `Connected` back to `Initialized`, `Start` moves `Connected` to
`Started`, `Stop` moves `Started` back to `Connected`; every other
combination leaves the state unchanged (no-op success or
`InvalidOperation`). -/
def specStep (s : DeviceState) (c : LifecycleCall) : DeviceState :=
  match c, s with
  | LifecycleCall.init _, DeviceState.uninitialized =>
      DeviceState.initialized
  | LifecycleCall.connect, DeviceState.initialized => DeviceState.connected
  | LifecycleCall.disconnect, DeviceState.connected =>
      DeviceState.initialized
  | LifecycleCall.start _ _ _, DeviceState.connected => DeviceState.started
  | LifecycleCall.stop, DeviceState.started => DeviceState.connected
  | _, s0 => s0

/-- All external calls of one lifecycle operation succeed. -/
def RemoteEnv.allSuccess (env : RemoteEnv) : Prop :=
  env.connectClientRes = NO_ERROR ∧ env.baseInitRes = NO_ERROR ∧
  env.queryConnectRes = NO_ERROR ∧ env.queryDisconnectRes = NO_ERROR ∧
  env.queryStartRes = NO_ERROR ∧ env.queryStopRes = NO_ERROR ∧
  env.commonStartRes = NO_ERROR ∧ env.allocOk = true

instance (env : RemoteEnv) : Decidable env.allSuccess := by
  unfold RemoteEnv.allSuccess
  infer_instance

/-- An environment in which every external call succeeds. -/
def okEnv : RemoteEnv :=
  { connectClientRes := NO_ERROR
    baseInitRes := NO_ERROR
    queryConnectRes := NO_ERROR
    queryDisconnectRes := NO_ERROR
    queryStartRes := NO_ERROR
    queryStopRes := NO_ERROR
    commonStartRes := NO_ERROR
    allocOk := true }

/-! ### Preview frame access (`getCurrentPreviewFrame`) -/

/-- Model of `memcpy(dest, src, n)` on byte lists: the first `n` bytes of `dest` are
replaced by the first `n` bytes of `src`. -/
def memcpyBytes (dest src : List Nat) (n : Nat) : List Nat :=
  src.take n ++ dest.drop n

/-- Translation of `EmulatedGenyCameraDevice::getCurrentPreviewFrame(buffer)`: when
`mPreviewFrame` is non-NULL, copy `mTotalPixels * 4` bytes out of it and
return `0`; otherwise delegate to the base-class implementation.  The base
implementation is code of the repository outside the provided sources and
the spec leaves its outcome open ("whatever the base defines"), so it is a
parameter. -/
def getCurrentPreviewFrame (base : List Nat → Status × List Nat)
    (d : Device) (buffer : List Nat) : Status × List Nat :=
  match d.mPreviewFrame with
  | some pf => (0, memcpyBytes buffer pf (d.mTotalPixels * 4))
  | none => base buffer

/-! ### Concrete fixtures used by witnesses and counterexamples -/

/-- A device that has gone through Initialize and Connect (small geometry so
closed theorems evaluate cheaply). -/
def connectedDevice : Device :=
  { initialDevice with
    mState := DeviceState.connected
    mDeviceName := "geny"
    clientConnected := true }

/-- A started device whose preview buffer holds a 2x2 RGB32 frame. -/
def startedWithBuffer : Device :=
  { initialDevice with
    mState := DeviceState.started
    mDeviceName := "geny"
    mFrameWidth := 2
    mFrameHeight := 2
    mPixelFormat := 42
    mTotalPixels := 4
    mFrameBufferSize := 16
    mPreviewFrame := some (List.replicate 16 7)
    clientConnected := true
    commonStarted := true }

/-- An environment in which only the remote open-capture call fails. -/
def envStartFail : RemoteEnv := { okEnv with queryStartRes := 5 }

/-- Is this lifecycle call a `Start`? -/
def isStartCall : LifecycleCall → Bool
  | LifecycleCall.start _ _ _ => true
  | _ => false

/-- Is this notification a device-error notification? -/
def isErrorNotif : Notification → Bool
  | Notification.onCameraDeviceError _ => true
  | _ => false

/-- The timestamps carried by the frame-ready notifications of a trace, in
delivery order. -/
def frameTimestamps (ns : List Notification) : List Nat :=
  ns.filterMap fun n =>
    match n with
    | Notification.onNextFrameAvailable _ ts _ => some ts
    | Notification.onCameraDeviceError _ => none

/-! ### C4: Start is idempotent when already Started -/

/-- C4: calling Start while the device is already Started returns success
and is a complete no-op: the device is unchanged (state stays Started, no
new frame buffer) and no external effect happens (no allocation, no remote
open-capture, no launch of the acquisition loop). -/
theorem start_already_started_noop (env : RemoteEnv) (d : Device)
    (width height pix_fmt : Nat)
    (hd : d.mState = DeviceState.started) :
    startDevice env d width height pix_fmt = (NO_ERROR, d, []) := by
  unfold startDevice
  have hc : isConnected d = true := by simp [isConnected, hd]
  have hs : isStarted d = true := by simp [isStarted, hd]
  simp [hc, hs]

/-- Witness for C4 at a concrete started device. -/
theorem start_already_started_noop_witness :
    startedWithBuffer.mState = DeviceState.started ∧
    startDevice okEnv startedWithBuffer 640 480 42
      = (NO_ERROR, startedWithBuffer, []) :=
  ⟨rfl, start_already_started_noop okEnv startedWithBuffer 640 480 42 rfl⟩

/-! ### C1: Stop and the preview frame buffer -/

/-- C1 (evaluation at the failing input): on a Started device with an
allocated preview buffer, a successful Stop returns success and moves the
state to Connected, but the preview frame buffer is still allocated after
Stop returns — the source frees it only under the inverted null check
`if (mPreviewFrame == NULL)`, which never fires for an allocated buffer. -/
theorem stop_leaves_buffer_allocated :
    (stopDevice okEnv startedWithBuffer).1 = NO_ERROR ∧
    (stopDevice okEnv startedWithBuffer).2.1.mState = DeviceState.connected ∧
    (stopDevice okEnv startedWithBuffer).2.1.mPreviewFrame
      = some (List.replicate 16 7) := by
  decide

/-! ### C3: Start failure after partial progress -/

/-- C3 (counterexample): Start on a Connected device whose remote
open-capture fails returns the error synchronously, but does NOT roll back
the partial side effects: the freshly allocated preview buffer remains
allocated and the base start bookkeeping remains done, contradicting the
claim that every partial side effect is rolled back. -/
theorem start_failure_no_rollback_counterexample :
    (startDevice envStartFail connectedDevice 2 2 42).1 = 5 ∧
    (startDevice envStartFail connectedDevice 2 2 42).2.1.mPreviewFrame
      ≠ none ∧
    (startDevice envStartFail connectedDevice 2 2 42).2.1.commonStarted
      = true := by
  decide

/-- C3 (amended): when Start fails after partial progress the error is
returned synchronously and the device state remains Connected, but the
partial side effects are not rolled back: after a failed remote
open-capture the just-allocated preview buffer remains allocated, and in
both failure cases (open-capture failure and allocation failure) the base
start bookkeeping remains done. -/
theorem start_failure_partial_effects (env : RemoteEnv) (d : Device)
    (width height pix_fmt : Nat)
    (hd : d.mState = DeviceState.connected)
    (hcs : env.commonStartRes = NO_ERROR) :
    (env.allocOk = true → env.queryStartRes ≠ NO_ERROR →
      (startDevice env d width height pix_fmt).1 = env.queryStartRes ∧
      (startDevice env d width height pix_fmt).2.1.mState
        = DeviceState.connected ∧
      (startDevice env d width height pix_fmt).2.1.mPreviewFrame
        = some (List.replicate (width * height * 4) 0) ∧
      (startDevice env d width height pix_fmt).2.1.commonStarted = true) ∧
    (env.allocOk = false →
      (startDevice env d width height pix_fmt).1 = ENOMEM ∧
      (startDevice env d width height pix_fmt).2.1.mState
        = DeviceState.connected ∧
      (startDevice env d width height pix_fmt).2.1.mPreviewFrame = none ∧
      (startDevice env d width height pix_fmt).2.1.commonStarted = true) := by
  have hc : isConnected d = true := by simp [isConnected, hd]
  have hs : isStarted d = false := by simp [isStarted, hd]
  constructor
  · intro halloc hfail
    simp [startDevice, hc, hs, commonStartDevice, hcs, halloc, hfail, hd]
  · intro halloc
    simp [startDevice, hc, hs, commonStartDevice, hcs, halloc, hd]

/-- Witness for the amended C3 theorem, at a concrete Connected device with
a failing remote open-capture. -/
theorem start_failure_partial_effects_witness :
    (startDevice envStartFail connectedDevice 2 2 42).1 = 5 ∧
    (startDevice envStartFail connectedDevice 2 2 42).2.1.mState
      = DeviceState.connected ∧
    (startDevice envStartFail connectedDevice 2 2 42).2.1.mPreviewFrame
      = some (List.replicate (2 * 2 * 4) 0) ∧
    (startDevice envStartFail connectedDevice 2 2 42).2.1.commonStarted
      = true :=
  (start_failure_partial_effects envStartFail connectedDevice 2 2 42
    rfl rfl).1 rfl (by decide)

/-! ### C9: the preview buffer outlives Stop -/

theorem EINVAL_ne_NO_ERROR : EINVAL ≠ NO_ERROR := by decide

theorem ENOMEM_ne_NO_ERROR : ENOMEM ≠ NO_ERROR := by decide

/-- Every lifecycle call other than Start leaves the preview frame buffer
pointer exactly as it was: only `startDevice` assigns a new buffer, and
`stopDevice`'s free sits under the inverted null check. -/
theorem applyCall_preserves_preview (env : RemoteEnv) (c : LifecycleCall)
    (d : Device) (hc : isStartCall c = false) :
    ((applyCall env c d).2.1).mPreviewFrame = d.mPreviewFrame := by
  cases c with
  | init name =>
      unfold applyCall Initialize baseInitialize
      by_cases h1 : env.connectClientRes = NO_ERROR <;>
        by_cases h2 : d.mState = DeviceState.uninitialized <;>
        by_cases h3 : env.baseInitRes = NO_ERROR <;>
        simp [h1, h2, h3, EINVAL_ne_NO_ERROR]
  | connect =>
      unfold applyCall connectDevice
      by_cases h1 : isInitialized d <;> by_cases h2 : isConnected d <;>
        by_cases h3 : env.queryConnectRes = NO_ERROR <;>
        simp [h1, h2, h3]
  | disconnect =>
      unfold applyCall disconnectDevice
      by_cases h1 : isConnected d <;> by_cases h2 : isStarted d <;>
        by_cases h3 : env.queryDisconnectRes = NO_ERROR <;>
        simp [h1, h2, h3]
  | start w h f => simp [isStartCall] at hc
  | stop =>
      unfold applyCall stopDevice commonStopDevice
      by_cases h1 : isStarted d <;>
        by_cases h2 : env.queryStopRes = NO_ERROR <;>
        by_cases h3 : d.mPreviewFrame = none <;>
        simp [h1, h2, h3]

/-- Running any sequence of lifecycle calls none of which is a Start leaves
the preview frame buffer pointer unchanged. -/
theorem runCalls_preserves_preview
    (cs : List (RemoteEnv × LifecycleCall)) (d : Device)
    (hc : ∀ p ∈ cs, isStartCall p.2 = false) :
    (runCalls cs d).mPreviewFrame = d.mPreviewFrame := by
  induction cs generalizing d with
  | nil => rfl
  | cons p rest ih =>
      have hp := hc p (by simp)
      have hrest : ∀ q ∈ rest, isStartCall q.2 = false := by
        intro q hq; exact hc q (by simp [hq])
      calc (runCalls (p :: rest) d).mPreviewFrame
          = (runCalls rest (applyCall p.1 p.2 d).2.1).mPreviewFrame := rfl
        _ = ((applyCall p.1 p.2 d).2.1).mPreviewFrame := ih _ hrest
        _ = d.mPreviewFrame := applyCall_preserves_preview p.1 p.2 d hp

/-- C9: after a successful Stop on a Started device the preview frame
buffer pointer is still the same non-null buffer; it stays unchanged under
any further sequence of lifecycle calls that contains no Start, so a
`getCurrentPreviewFrame` call made after Stop still copies the last frame of
the previous session out of that buffer instead of delegating to the base;
only the destructor releases the buffer. -/
theorem preview_buffer_outlives_stop (env : RemoteEnv) (d : Device)
    (b : List Nat)
    (hs : d.mState = DeviceState.started)
    (hb : d.mPreviewFrame = some b)
    (hok : env.queryStopRes = NO_ERROR)
    (base : List Nat → Status × List Nat) (buffer : List Nat)
    (cs : List (RemoteEnv × LifecycleCall))
    (hcs : ∀ p ∈ cs, isStartCall p.2 = false) :
    (stopDevice env d).1 = NO_ERROR ∧
    ((stopDevice env d).2.1).mPreviewFrame = some b ∧
    getCurrentPreviewFrame base (stopDevice env d).2.1 buffer
      = (0, memcpyBytes buffer b ((stopDevice env d).2.1.mTotalPixels * 4)) ∧
    (runCalls cs (stopDevice env d).2.1).mPreviewFrame = some b ∧
    (destroyDevice (runCalls cs (stopDevice env d).2.1)).mPreviewFrame
      = none := by
  have hst : isStarted d = true := by simp [isStarted, hs]
  have hbne : d.mPreviewFrame ≠ none := by simp [hb]
  have hstop : stopDevice env d
      = (NO_ERROR,
          { commonStopDevice d with mState := DeviceState.connected },
          [Event.remoteQueryStop]) := by
    unfold stopDevice
    simp [hst, hok, hbne]
  have hpf : ((stopDevice env d).2.1).mPreviewFrame = some b := by
    rw [hstop]; exact hb
  have hrun : (runCalls cs (stopDevice env d).2.1).mPreviewFrame = some b :=
    (runCalls_preserves_preview cs _ hcs).trans hpf
  refine ⟨by rw [hstop], hpf, ?_, hrun, ?_⟩
  · unfold getCurrentPreviewFrame
    rw [hpf]
  · unfold destroyDevice
    simp [hrun]

/-- Witness for C9: a concrete started device, stopped, then disconnected
and re-connected, still holds the old frame bytes. -/
theorem preview_buffer_outlives_stop_witness :
    startedWithBuffer.mState = DeviceState.started ∧
    startedWithBuffer.mPreviewFrame = some (List.replicate 16 7) ∧
    okEnv.queryStopRes = NO_ERROR ∧
    (∀ p ∈ [(okEnv, LifecycleCall.disconnect),
            (okEnv, LifecycleCall.connect)], isStartCall p.2 = false) ∧
    (runCalls [(okEnv, LifecycleCall.disconnect),
               (okEnv, LifecycleCall.connect)]
        (stopDevice okEnv startedWithBuffer).2.1).mPreviewFrame
      = some (List.replicate 16 7) :=
  ⟨rfl, rfl, rfl, by decide,
    (preview_buffer_outlives_stop okEnv startedWithBuffer
      (List.replicate 16 7) rfl rfl rfl (fun buf => (EINVAL, buf)) []
      [(okEnv, LifecycleCall.disconnect), (okEnv, LifecycleCall.connect)]
      (by decide)).2.2.2.1⟩

/-! ### C8: getCurrentPreviewFrame -/

/-- C8: when the preview buffer exists, `getCurrentPreviewFrame` copies
exactly `mTotalPixels * 4` bytes of it into the caller's destination (the
copied prefix is the buffer, the rest of the destination is untouched, the
destination length is unchanged) and returns `0`; when the buffer does not
exist, the call returns exactly what the base-class implementation returns,
raising no error of its own. -/
theorem getCurrentPreviewFrame_spec
    (base : List Nat → Status × List Nat) (d : Device)
    (buffer b : List Nat)
    (hb : d.mPreviewFrame = some b)
    (hlen : b.length = d.mTotalPixels * 4)
    (hbuf : d.mTotalPixels * 4 ≤ buffer.length) :
    getCurrentPreviewFrame base d buffer
      = (0, b ++ buffer.drop (d.mTotalPixels * 4)) ∧
    (b ++ buffer.drop (d.mTotalPixels * 4)).take (d.mTotalPixels * 4) = b ∧
    (b ++ buffer.drop (d.mTotalPixels * 4)).drop (d.mTotalPixels * 4)
      = buffer.drop (d.mTotalPixels * 4) ∧
    (b ++ buffer.drop (d.mTotalPixels * 4)).length = buffer.length ∧
    (∀ d2 : Device, d2.mPreviewFrame = none →
      getCurrentPreviewFrame base d2 buffer = base buffer) := by
  refine ⟨?_, ?_, ?_, ?_, ?_⟩
  · unfold getCurrentPreviewFrame memcpyBytes
    simp [hb, ← hlen, List.take_length]
  · rw [← hlen, List.take_left]
  · rw [← hlen, List.drop_left]
  · rw [List.length_append, List.length_drop, hlen]
    omega
  · intro d2 h2
    unfold getCurrentPreviewFrame
    rw [h2]

/-- Witness for C8 at the concrete started fixture. -/
theorem getCurrentPreviewFrame_spec_witness :
    getCurrentPreviewFrame (fun buf => (EINVAL, buf)) startedWithBuffer
        (List.replicate 20 1)
      = (0, List.replicate 16 7
            ++ (List.replicate 20 1).drop (startedWithBuffer.mTotalPixels * 4)) ∧
    getCurrentPreviewFrame (fun buf => (EINVAL, buf)) initialDevice
        (List.replicate 20 1)
      = (EINVAL, List.replicate 20 1) := by
  have h := getCurrentPreviewFrame_spec (fun buf => (EINVAL, buf))
    startedWithBuffer (List.replicate 20 1) (List.replicate 16 7)
    rfl (by decide) (by decide)
  exact ⟨h.1, h.2.2.2.2 initialDevice rfl⟩

/-! ### C10: whenever the device is Started the preview buffer is non-null -/

/-- One lifecycle call preserves the invariant "Started implies the preview
buffer is allocated": Start moves the state to Started only after the
allocation succeeded, Stop leaves the buffer alone, and no other call
touches either field in a way that breaks the implication. -/
theorem applyCall_started_buffer (env : RemoteEnv) (c : LifecycleCall)
    (d : Device)
    (h : d.mState = DeviceState.started → d.mPreviewFrame ≠ none) :
    (applyCall env c d).2.1.mState = DeviceState.started →
      (applyCall env c d).2.1.mPreviewFrame ≠ none := by
  cases c with
  | init name =>
      unfold applyCall Initialize baseInitialize
      by_cases h1 : env.connectClientRes = NO_ERROR <;>
        by_cases h2 : d.mState = DeviceState.uninitialized <;>
        by_cases h3 : env.baseInitRes = NO_ERROR <;>
        simp [h1, h2, h3, EINVAL_ne_NO_ERROR] <;> try exact h
  | connect =>
      unfold applyCall connectDevice
      by_cases h1 : isInitialized d <;> by_cases h2 : isConnected d <;>
        by_cases h3 : env.queryConnectRes = NO_ERROR <;>
        simp [h1, h2, h3] <;> try exact h
  | disconnect =>
      unfold applyCall disconnectDevice
      by_cases h1 : isConnected d <;> by_cases h2 : isStarted d <;>
        by_cases h3 : env.queryDisconnectRes = NO_ERROR <;>
        simp [h1, h2, h3] <;> try exact h
  | start w hh f =>
      unfold applyCall startDevice commonStartDevice
      by_cases h1 : isConnected d
      · by_cases h2 : isStarted d
        · simp [h1, h2]; exact h
        · have hns : ¬ d.mState = DeviceState.started := by
            simpa [isStarted] using h2
          by_cases h3 : env.commonStartRes = NO_ERROR
          · by_cases h4 : env.allocOk = true
            · by_cases h5 : env.queryStartRes = NO_ERROR
              · simp [h1, h2, h3, h4, h5]
              · simp [h1, h2, h3, h4, h5, hns]
            · have h4' : env.allocOk = false := by simpa using h4
              simp [h1, h2, h3, h4', ENOMEM_ne_NO_ERROR, hns]
          · simp [h1, h2, h3]; exact h
      · simp [applyCall, startDevice, h1]; exact h
  | stop =>
      unfold applyCall stopDevice commonStopDevice
      by_cases h1 : isStarted d <;>
        by_cases h2 : env.queryStopRes = NO_ERROR <;>
        by_cases h3 : d.mPreviewFrame = none <;>
        simp [h1, h2, h3] <;>
        first
        | exact h
        | exact fun hst => (h hst) h3

/-- The invariant holds for every device reachable from a given device
satisfying it, along any sequence of lifecycle calls. -/
theorem runCalls_started_buffer (cs : List (RemoteEnv × LifecycleCall))
    (d : Device)
    (h : d.mState = DeviceState.started → d.mPreviewFrame ≠ none) :
    (runCalls cs d).mState = DeviceState.started →
      (runCalls cs d).mPreviewFrame ≠ none := by
  induction cs generalizing d with
  | nil => exact h
  | cons p rest ih =>
      exact ih (applyCall p.1 p.2 d).2.1
        (applyCall_started_buffer p.1 p.2 d h)

/-- One worker-loop iteration never deallocates the preview buffer: the
success path rewrites its contents in place (an `Option.map`), every other
path leaves it untouched. -/
theorem inWorkerThread_preserves_preview_isSome (e : IterEnv) (d : Device)
    (hd : d.mPreviewFrame ≠ none) :
    (inWorkerThread e d).device.mPreviewFrame ≠ none := by
  unfold inWorkerThread
  cases hsel : e.select (1000000 / d.mEmulatedFPS) <;>
    by_cases hq : e.queryFrameRes = NO_ERROR <;>
      simp [hsel, hq, Option.map_eq_none'] <;> exact hd

/-- Every `queryFrame` call a single iteration makes passes exactly the
device's current preview buffer pointer. -/
theorem inWorkerThread_pulls_preview (e : IterEnv) (d : Device) :
    ∀ call ∈ (inWorkerThread e d).pulls, call.previewBuf = d.mPreviewFrame := by
  unfold inWorkerThread
  cases hsel : e.select (1000000 / d.mEmulatedFPS) <;>
    by_cases hq : e.queryFrameRes = NO_ERROR <;>
      simp [hsel, hq]

/-- Every `queryFrame` call the worker loop makes from a device whose
preview buffer is allocated passes a non-null preview buffer pointer. -/
theorem workerLoop_pulls_preview_nonnull (envs : List IterEnv) (d : Device)
    (hd : d.mPreviewFrame ≠ none) :
    ∀ call ∈ (workerLoop envs d).2.2, call.previewBuf ≠ none := by
  induction envs generalizing d with
  | nil => intro call hc; simp [workerLoop] at hc
  | cons e rest ih =>
      intro call hc
      by_cases hk : (inWorkerThread e d).keepGoing
      · simp only [workerLoop, hk, if_true] at hc
        rcases List.mem_append.mp hc with hc1 | hc2
        · rw [inWorkerThread_pulls_preview e d call hc1]
          exact hd
        · exact ih (inWorkerThread e d).device
            (inWorkerThread_preserves_preview_isSome e d hd) call hc2
      · simp only [workerLoop, hk, if_false] at hc
        rw [inWorkerThread_pulls_preview e d call hc]
        exact hd

/-- C10: in every device reachable from a fresh device by lifecycle calls,
the Started state implies the preview frame buffer is non-null, and every
frame pull the acquisition loop performs from such a device passes a
non-null preview buffer pointer to the remote source. -/
theorem started_state_has_buffer (cs : List (RemoteEnv × LifecycleCall))
    (hs : (runCalls cs initialDevice).mState = DeviceState.started) :
    (runCalls cs initialDevice).mPreviewFrame ≠ none ∧
    ∀ envs : List IterEnv,
      ∀ call ∈ (workerLoop envs (runCalls cs initialDevice)).2.2,
        call.previewBuf ≠ none := by
  have hinv : (runCalls cs initialDevice).mPreviewFrame ≠ none :=
    runCalls_started_buffer cs initialDevice (by intro h0; cases h0) hs
  exact ⟨hinv, fun envs =>
    workerLoop_pulls_preview_nonnull envs (runCalls cs initialDevice) hinv⟩

/-- A concrete Initialize-Connect-Start run used by witnesses. -/
def csW : List (RemoteEnv × LifecycleCall) :=
  [(okEnv, LifecycleCall.init "cam"), (okEnv, LifecycleCall.connect),
   (okEnv, LifecycleCall.start 2 2 42)]

/-- Witness for C10 on a concrete Initialize-Connect-Start run. -/
theorem started_state_has_buffer_witness :
    (runCalls csW initialDevice).mState = DeviceState.started ∧
    (runCalls csW initialDevice).mPreviewFrame ≠ none :=
  ⟨by decide, (started_state_has_buffer csW (by decide)).1⟩

/-! ### C2: the lifecycle refines the transition table of §4.1 -/

/-- On the all-success path, every single lifecycle call moves `mState`
exactly as the spec's transition table does. -/
theorem applyCall_mState_spec (env : RemoteEnv) (c : LifecycleCall)
    (d : Device) (henv : env.allSuccess) :
    (applyCall env c d).2.1.mState = specStep d.mState c := by
  obtain ⟨e1, e2, e3, e4, e5, e6, e7, e8⟩ := henv
  cases c with
  | init name =>
      unfold applyCall Initialize baseInitialize specStep
      cases hs : d.mState <;> simp [e1, e2, hs, EINVAL_ne_NO_ERROR]
  | connect =>
      unfold applyCall connectDevice specStep
      cases hs : d.mState <;>
        simp [isInitialized, isConnected, hs, e3]
  | disconnect =>
      unfold applyCall disconnectDevice specStep
      cases hs : d.mState <;>
        simp [isConnected, isStarted, hs, e4]
  | start w hh f =>
      unfold applyCall startDevice commonStartDevice specStep
      cases hs : d.mState <;>
        simp [isConnected, isStarted, hs, e5, e7, e8]
  | stop =>
      unfold applyCall stopDevice commonStopDevice specStep
      cases hs : d.mState <;>
        simp [isStarted, hs, e6]

/-- On the all-success path, a whole sequence of lifecycle calls moves
`mState` exactly as folding the spec's transition table does. -/
theorem runCalls_mState_spec (cs : List (RemoteEnv × LifecycleCall))
    (d : Device) (h : ∀ p ∈ cs, p.1.allSuccess) :
    (runCalls cs d).mState = (cs.map Prod.snd).foldl specStep d.mState := by
  induction cs generalizing d with
  | nil => rfl
  | cons p rest ih =>
      have hp := h p (by simp)
      have hrest : ∀ q ∈ rest, q.1.allSuccess := fun q hq => h q (by simp [hq])
      calc (runCalls (p :: rest) d).mState
          = (runCalls rest (applyCall p.1 p.2 d).2.1).mState := rfl
        _ = (rest.map Prod.snd).foldl specStep
              (applyCall p.1 p.2 d).2.1.mState := ih _ hrest
        _ = (rest.map Prod.snd).foldl specStep (specStep d.mState p.2) := by
              rw [applyCall_mState_spec p.1 p.2 d hp]
        _ = ((p :: rest).map Prod.snd).foldl specStep d.mState := by simp

/-- C2: (i) for every sequence of lifecycle calls on the all-success path,
the device state after the sequence equals the fold of the §4.1 transition
table; (ii) every call attempted from a state its precondition forbids
returns `InvalidOperation` (EINVAL) and leaves the state unchanged —
Initialize outside Uninitialized, Connect in Uninitialized, Disconnect in
Started, Start outside Connected/Started; (iii) every call finding the
device already in the desired state is a successful no-op — Connect when
already connected, Disconnect when already disconnected, Start when already
started, Stop when not started. -/
theorem lifecycle_follows_transition_table :
    (∀ (cs : List (RemoteEnv × LifecycleCall)) (d : Device),
        (∀ p ∈ cs, p.1.allSuccess) →
        (runCalls cs d).mState = (cs.map Prod.snd).foldl specStep d.mState) ∧
    (∀ (env : RemoteEnv) (d : Device) (name : String),
        env.connectClientRes = NO_ERROR →
        d.mState ≠ DeviceState.uninitialized →
        (Initialize env d name).1 = EINVAL ∧
        (Initialize env d name).2.1.mState = d.mState) ∧
    (∀ (env : RemoteEnv) (d : Device),
        d.mState = DeviceState.uninitialized →
        connectDevice env d = (EINVAL, d, [])) ∧
    (∀ (env : RemoteEnv) (d : Device),
        d.mState = DeviceState.started →
        disconnectDevice env d = (EINVAL, d, [])) ∧
    (∀ (env : RemoteEnv) (d : Device) (w h f : Nat),
        d.mState = DeviceState.uninitialized ∨
          d.mState = DeviceState.initialized →
        startDevice env d w h f = (EINVAL, d, [])) ∧
    (∀ (env : RemoteEnv) (d : Device),
        d.mState = DeviceState.connected ∨ d.mState = DeviceState.started →
        connectDevice env d = (NO_ERROR, d, [])) ∧
    (∀ (env : RemoteEnv) (d : Device),
        d.mState = DeviceState.uninitialized ∨
          d.mState = DeviceState.initialized →
        disconnectDevice env d = (NO_ERROR, d, [])) ∧
    (∀ (env : RemoteEnv) (d : Device) (w h f : Nat),
        d.mState = DeviceState.started →
        startDevice env d w h f = (NO_ERROR, d, [])) ∧
    (∀ (env : RemoteEnv) (d : Device),
        d.mState ≠ DeviceState.started →
        stopDevice env d = (NO_ERROR, d, [])) := by
  refine ⟨runCalls_mState_spec, ?_, ?_, ?_, ?_, ?_, ?_, ?_, ?_⟩
  · intro env d name h1 h2
    unfold Initialize baseInitialize
    simp [h1, h2, EINVAL_ne_NO_ERROR]
  · intro env d h
    unfold connectDevice
    simp [isInitialized, h]
  · intro env d h
    unfold disconnectDevice
    simp [isConnected, isStarted, h]
  · intro env d w hh f h
    unfold startDevice
    rcases h with h | h <;> simp [isConnected, h]
  · intro env d h
    unfold connectDevice
    rcases h with h | h <;> simp [isInitialized, isConnected, h]
  · intro env d h
    unfold disconnectDevice
    rcases h with h | h <;> simp [isConnected, h]
  · intro env d w hh f h
    unfold startDevice
    simp [isConnected, isStarted, h]
  · intro env d h
    unfold stopDevice
    simp [isStarted, h]

/-- Witness for C2: the concrete Initialize-Connect-Start run matches the
spec fold, Connect from Uninitialized is rejected with EINVAL, and Stop
before Start is a successful no-op. -/
theorem lifecycle_follows_transition_table_witness :
    (runCalls csW initialDevice).mState
      = (csW.map Prod.snd).foldl specStep initialDevice.mState ∧
    connectDevice okEnv initialDevice = (EINVAL, initialDevice, []) ∧
    stopDevice okEnv initialDevice = (NO_ERROR, initialDevice, []) :=
  ⟨lifecycle_follows_transition_table.1 csW initialDevice (by decide),
   lifecycle_follows_transition_table.2.2.1 okEnv initialDevice rfl,
   lifecycle_follows_transition_table.2.2.2.2.2.2.2.2 okEnv initialDevice
     (by decide)⟩

/-! ### C6: the shape of one acquisition-loop iteration -/

/-- C6: every iteration waits on `Select` with the fixed timeout
`1000000 / mEmulatedFPS` microseconds; on the exit message it terminates
cleanly (no pull, no notification, device untouched); on timeout it calls
`queryFrame` with the output frame buffer, the preview buffer, both buffer
sizes, the three white-balance channel gains and the exposure compensation;
on pull success it records the current monotonic time as the frame
timestamp and delivers the frame-ready notification carrying the frame, the
timestamp and the device reference, then continues. -/
theorem worker_iteration_behavior (e : IterEnv) (d : Device) :
    (inWorkerThread e d).waits = [1000000 / d.mEmulatedFPS] ∧
    (e.select (1000000 / d.mEmulatedFPS) = SelectRes.exitThread →
      (inWorkerThread e d).keepGoing = false ∧
      (inWorkerThread e d).device = d ∧
      (inWorkerThread e d).notifs = [] ∧
      (inWorkerThread e d).pulls = []) ∧
    (e.select (1000000 / d.mEmulatedFPS) = SelectRes.timedOut →
      (inWorkerThread e d).pulls =
        [{ frameBuf := d.mCurrentFrame
           previewBuf := d.mPreviewFrame
           frameBufSize := d.mFrameBufferSize
           previewBufSize := d.mTotalPixels * 4
           wbScale0 := d.mWhiteBalanceScale0
           wbScale1 := d.mWhiteBalanceScale1
           wbScale2 := d.mWhiteBalanceScale2
           exposureComp := d.mExposureCompensation }]) ∧
    (e.select (1000000 / d.mEmulatedFPS) = SelectRes.timedOut →
      e.queryFrameRes = NO_ERROR →
      (inWorkerThread e d).keepGoing = true ∧
      (inWorkerThread e d).device.mCurFrameTimestamp = e.clockNow ∧
      (inWorkerThread e d).notifs =
        [Notification.onNextFrameAvailable e.frameData e.clockNow
          d.selfRef]) := by
  refine ⟨?_, ?_, ?_, ?_⟩
  · unfold inWorkerThread
    cases hsel : e.select (1000000 / d.mEmulatedFPS) <;>
      by_cases hq : e.queryFrameRes = NO_ERROR <;> simp [hsel, hq]
  · intro hsel
    unfold inWorkerThread
    simp [hsel]
  · intro hsel
    unfold inWorkerThread
    by_cases hq : e.queryFrameRes = NO_ERROR <;> simp [hsel, hq]
  · intro hsel hq
    unfold inWorkerThread
    simp [hsel, hq]

/-- An iteration environment that signals thread exit. -/
def envExit : IterEnv :=
  { select := fun _ => SelectRes.exitThread
    queryFrameRes := NO_ERROR
    frameData := []
    previewData := []
    clockNow := 5 }

/-- An iteration environment whose pull succeeds at monotonic time 7. -/
def envGood : IterEnv :=
  { select := fun _ => SelectRes.timedOut
    queryFrameRes := NO_ERROR
    frameData := [1, 2]
    previewData := [3]
    clockNow := 7 }

/-- An iteration environment whose pull succeeds at monotonic time 9. -/
def envGood2 : IterEnv := { envGood with clockNow := 9, frameData := [4] }

/-- An iteration environment whose pull fails at monotonic time 8. -/
def envBad : IterEnv :=
  { select := fun _ => SelectRes.timedOut
    queryFrameRes := 9
    frameData := []
    previewData := []
    clockNow := 8 }

/-- Witness for C6 at concrete iteration environments: the exit signal
terminates the loop, and a successful pull delivers the frame-ready
notification with the pulled frame and its timestamp. -/
theorem worker_iteration_behavior_witness :
    (inWorkerThread envExit startedWithBuffer).keepGoing = false ∧
    (inWorkerThread envGood startedWithBuffer).notifs =
      [Notification.onNextFrameAvailable [1, 2] 7 startedWithBuffer.selfRef] :=
  ⟨((worker_iteration_behavior envExit startedWithBuffer).2.1 rfl).1,
   ((worker_iteration_behavior envGood startedWithBuffer).2.2.2 rfl rfl).2.2⟩

/-! ### C5: a single pull failure ends the session with one error -/

/-- Neither branch of an iteration touches the lifecycle state. -/
theorem inWorkerThread_mState (e : IterEnv) (d : Device) :
    (inWorkerThread e d).device.mState = d.mState := by
  unfold inWorkerThread
  cases hsel : e.select (1000000 / d.mEmulatedFPS) <;>
    by_cases hq : e.queryFrameRes = NO_ERROR <;> simp [hsel, hq]

/-- The worker loop never changes the lifecycle state, whatever happens. -/
theorem workerLoop_mState (envs : List IterEnv) (d : Device) :
    (workerLoop envs d).1.mState = d.mState := by
  induction envs generalizing d with
  | nil => rfl
  | cons e rest ih =>
      unfold workerLoop
      by_cases hk : (inWorkerThread e d).keepGoing <;> simp [hk]
      · exact (ih _).trans (inWorkerThread_mState e d)
      · exact inWorkerThread_mState e d

/-- C5: if, in one Started session, every iteration before some point pulls
a frame successfully and the pull then fails once, the delivered
notification trace is exactly the frame-ready notifications of the
successful iterations followed by a single device-error notification
(`CAMERA_ERROR_SERVER_DIED`): exactly one error is delivered, nothing —
in particular no frame-ready — follows it for that session, and the loop
itself never changes the device state. -/
theorem pull_failure_single_error (pre rest : List IterEnv) (bad : IterEnv)
    (d : Device)
    (hpre : ∀ e ∈ pre, (∀ t, e.select t = SelectRes.timedOut) ∧
      e.queryFrameRes = NO_ERROR)
    (hbsel : ∀ t, bad.select t = SelectRes.timedOut)
    (hbres : bad.queryFrameRes ≠ NO_ERROR) :
    (workerLoop (pre ++ bad :: rest) d).2.1
      = pre.map (fun e => Notification.onNextFrameAvailable e.frameData
          e.clockNow d.selfRef)
        ++ [Notification.onCameraDeviceError CAMERA_ERROR_SERVER_DIED] ∧
    ((workerLoop (pre ++ bad :: rest) d).2.1).countP isErrorNotif = 1 ∧
    (∀ (envs : List IterEnv) (d2 : Device),
        (workerLoop envs d2).1.mState = d2.mState) := by
  have htrace : (workerLoop (pre ++ bad :: rest) d).2.1
      = pre.map (fun e => Notification.onNextFrameAvailable e.frameData
          e.clockNow d.selfRef)
        ++ [Notification.onCameraDeviceError CAMERA_ERROR_SERVER_DIED] := by
    revert hpre
    induction pre generalizing d with
    | nil =>
        intro hpre
        simp [workerLoop, inWorkerThread, hbsel, hbres]
    | cons e es ih =>
        intro hpre
        have he := hpre e (by simp)
        have hes : ∀ e2 ∈ es, (∀ t, e2.select t = SelectRes.timedOut) ∧
            e2.queryFrameRes = NO_ERROR :=
          fun e2 h2 => hpre e2 (by simp [h2])
        simp only [List.cons_append]
        unfold workerLoop
        simp [inWorkerThread, he.1, he.2, ih _ hes]
  refine ⟨htrace, ?_, workerLoop_mState⟩
  have hz : (pre.map (fun e => Notification.onNextFrameAvailable e.frameData
      e.clockNow d.selfRef)).countP isErrorNotif = 0 := by
    rw [List.countP_eq_zero]
    intro n hn
    obtain ⟨e, he, rfl⟩ := List.mem_map.mp hn
    simp [isErrorNotif]
  rw [htrace, List.countP_append, hz]
  simp [isErrorNotif, List.countP_cons]

/-- Witness for C5: one good pull, then a failing pull, with a further
iteration pending that is never consumed. -/
theorem pull_failure_single_error_witness :
    ((workerLoop ([envGood] ++ envBad :: [envGood2])
        startedWithBuffer).2.1).countP isErrorNotif = 1 :=
  (pull_failure_single_error [envGood] [envGood2] envBad startedWithBuffer
    (by
      intro e he
      rw [List.mem_singleton] at he
      subst he
      exact ⟨fun t => rfl, rfl⟩)
    (fun t => rfl) (by decide)).2.1

/-! ### C7: frame timestamps are strictly increasing within a session -/

/-- The timestamps delivered by the loop form a sublist (in order) of the
monotonic-clock readings of the iteration environments. -/
theorem workerLoop_timestamps_sublist (envs : List IterEnv) (d : Device) :
    List.Sublist (frameTimestamps (workerLoop envs d).2.1)
      (envs.map IterEnv.clockNow) := by
  induction envs generalizing d with
  | nil => simp [workerLoop, frameTimestamps]
  | cons e rest ih =>
      unfold workerLoop
      cases hsel : e.select (1000000 / d.mEmulatedFPS) with
      | exitThread =>
          simp [inWorkerThread, hsel, frameTimestamps]
      | timedOut =>
          by_cases hq : e.queryFrameRes = NO_ERROR
          · simp [inWorkerThread, hsel, hq, frameTimestamps,
              List.filterMap_append]
            exact ih _
          · simp [inWorkerThread, hsel, hq, frameTimestamps]

/-- C7: within one Started session, if the monotonic clock readings across
the loop iterations are strictly increasing, then the timestamps carried by
the delivered frame-ready notifications are strictly increasing in delivery
order. -/
theorem frame_timestamps_strictly_increasing (envs : List IterEnv)
    (d : Device)
    (hclock : (envs.map IterEnv.clockNow).Pairwise (· < ·)) :
    (frameTimestamps (workerLoop envs d).2.1).Pairwise (· < ·) :=
  List.Pairwise.sublist (workerLoop_timestamps_sublist envs d) hclock

/-- Witness for C7: two successful pulls at clock readings 7 and 9 deliver
strictly increasing timestamps. -/
theorem frame_timestamps_strictly_increasing_witness :
    (frameTimestamps
        (workerLoop [envGood, envGood2] startedWithBuffer).2.1).Pairwise
      (· < ·) :=
  frame_timestamps_strictly_increasing [envGood, envGood2] startedWithBuffer
    (by decide)

end GenyCamera
